import Mathlib

/-!
Shallow embedding of `src/src/io/iologindata.cpp` (Canary server,
`IOLoginData`): the authentication gate (`gameWorldAuthentication`), the
online-presence tracker (`updateOnlineStatus`), the load pipeline
(`loadPlayer`) and the save pipeline (`savePlayer` / `savePlayerGuard`).
External collaborators (account store, sub-loaders, sub-savers, the
transaction primitive) are parameters of the embedded functions; the
orchestration logic is translated line by line from the source.
-/

/-! ## Online-presence tracker: `IOLoginData::updateOnlineStatus` -/

/-- A query executed by `updateOnlineStatus` against the `players_online`
table. -/
inductive OnlineQuery where
  | insertPlayersOnline (guid : Nat)
  | deletePlayersOnline (guid : Nat)
  deriving DecidableEq

/-- State touched by `IOLoginData::updateOnlineStatus`: the static
`updateOnline` hash map (modelled by its key list — the code only ever stores
the value `true`), the external `players_online` up-down counter maintained
through `g_metrics()`, and the list of queries executed so far. -/
structure OnlineState where
  updateOnline : List Nat
  playersOnlineCounter : Int
  queries : List OnlineQuery
  deriving DecidableEq

/-- `IOLoginData::updateOnlineStatus(uint32_t guid, bool login)`.
In the guard, C++ `&&` binds tighter than `||`, and `guid` is unsigned, so
`guid <= 0` holds exactly when `guid = 0`. -/
def updateOnlineStatus (guid : Nat) (login : Bool) (s : OnlineState) : OnlineState :=
  if (login = true ∧ guid ∈ s.updateOnline) ∨ guid = 0 then
    s
  else if login = true then
    { updateOnline := if guid ∈ s.updateOnline then s.updateOnline else guid :: s.updateOnline
      playersOnlineCounter := s.playersOnlineCounter + 1
      queries := s.queries ++ [OnlineQuery.insertPlayersOnline guid] }
  else
    { updateOnline := s.updateOnline.erase guid
      playersOnlineCounter := s.playersOnlineCounter - 1
      queries := s.queries ++ [OnlineQuery.deletePlayersOnline guid] }

/-- An initial presence state: nobody online, counter zero, no queries. -/
def emptyOnlineState : OnlineState :=
  { updateOnline := [], playersOnlineCounter := 0, queries := [] }

theorem updateOnlineStatus_zero_id (login : Bool) (s : OnlineState) :
    updateOnlineStatus 0 login s = s := by
  simp [updateOnlineStatus]

theorem markOnline_mem (guid : Nat) (s : OnlineState) (h : guid ∈ s.updateOnline) :
    updateOnlineStatus guid true s = s := by
  simp [updateOnlineStatus, h]

theorem markOnline_not_mem (guid : Nat) (s : OnlineState) (hg : guid ≠ 0)
    (h : guid ∉ s.updateOnline) :
    updateOnlineStatus guid true s =
      { updateOnline := guid :: s.updateOnline
        playersOnlineCounter := s.playersOnlineCounter + 1
        queries := s.queries ++ [OnlineQuery.insertPlayersOnline guid] } := by
  simp [updateOnlineStatus, h, hg]

theorem markOffline_spec (guid : Nat) (s : OnlineState) (hg : guid ≠ 0) :
    updateOnlineStatus guid false s =
      { updateOnline := s.updateOnline.erase guid
        playersOnlineCounter := s.playersOnlineCounter - 1
        queries := s.queries ++ [OnlineQuery.deletePlayersOnline guid] } := by
  simp [updateOnlineStatus, hg]

/-- Claim C5: a second `markOnline` for the same positive id is a complete
no-op (presence, counter and query list all unchanged), two `markOnline`
calls from a state where the id is absent change the counter by exactly
`+1`, and `markOnline` with id `0` changes nothing. -/
theorem updateOnlineStatus_markOnline_idempotent (guid : Nat) (s : OnlineState)
    (hpos : 0 < guid) :
    updateOnlineStatus guid true (updateOnlineStatus guid true s)
        = updateOnlineStatus guid true s
    ∧ (guid ∉ s.updateOnline →
        (updateOnlineStatus guid true (updateOnlineStatus guid true s)).playersOnlineCounter
          = s.playersOnlineCounter + 1)
    ∧ updateOnlineStatus 0 true s = s := by
  have hg : guid ≠ 0 := Nat.pos_iff_ne_zero.mp hpos
  refine ⟨?_, ?_, updateOnlineStatus_zero_id true s⟩
  · by_cases h : guid ∈ s.updateOnline
    · rw [markOnline_mem guid s h, markOnline_mem guid s h]
    · rw [markOnline_not_mem guid s hg h]
      exact markOnline_mem guid _ (List.mem_cons_self guid _)
  · intro h
    rw [markOnline_not_mem guid s hg h,
      markOnline_mem guid _ (List.mem_cons_self guid _)]

/-- Witness for C5 at `guid = 3` on the empty state. -/
theorem updateOnlineStatus_markOnline_idempotent_witness :
    updateOnlineStatus 3 true (updateOnlineStatus 3 true emptyOnlineState)
        = updateOnlineStatus 3 true emptyOnlineState
    ∧ (updateOnlineStatus 3 true (updateOnlineStatus 3 true emptyOnlineState)).playersOnlineCounter
        = emptyOnlineState.playersOnlineCounter + 1
    ∧ updateOnlineStatus 0 true emptyOnlineState = emptyOnlineState :=
  ⟨(updateOnlineStatus_markOnline_idempotent 3 emptyOnlineState (by decide)).1,
   (updateOnlineStatus_markOnline_idempotent 3 emptyOnlineState (by decide)).2.1 (by decide),
   (updateOnlineStatus_markOnline_idempotent 3 emptyOnlineState (by decide)).2.2⟩

/-- Claim C6: `markOnline(x)` then `markOffline(x)` then `markOnline(x)` for a
positive id absent at the start leaves the id present and changes the counter
by a net `+1`. -/
theorem updateOnlineStatus_on_off_on (guid : Nat) (s : OnlineState)
    (hpos : 0 < guid) (habs : guid ∉ s.updateOnline) :
    guid ∈ (updateOnlineStatus guid true
        (updateOnlineStatus guid false (updateOnlineStatus guid true s))).updateOnline
    ∧ (updateOnlineStatus guid true
        (updateOnlineStatus guid false (updateOnlineStatus guid true s))).playersOnlineCounter
      = s.playersOnlineCounter + 1 := by
  have hg : guid ≠ 0 := Nat.pos_iff_ne_zero.mp hpos
  rw [markOnline_not_mem guid s hg habs, markOffline_spec guid _ hg]
  simp only [List.erase_cons_head]
  refine ⟨?_, ?_⟩ <;> simp [updateOnlineStatus, habs, hg]

/-- Witness for C6 at `guid = 7` on the empty state. -/
theorem updateOnlineStatus_on_off_on_witness :
    0 < 7 ∧ 7 ∉ emptyOnlineState.updateOnline
    ∧ (7 ∈ (updateOnlineStatus 7 true
          (updateOnlineStatus 7 false (updateOnlineStatus 7 true emptyOnlineState))).updateOnline
      ∧ (updateOnlineStatus 7 true
          (updateOnlineStatus 7 false (updateOnlineStatus 7 true emptyOnlineState))).playersOnlineCounter
        = emptyOnlineState.playersOnlineCounter + 1) :=
  ⟨by decide, by decide,
    updateOnlineStatus_on_off_on 7 emptyOnlineState (by decide) (by decide)⟩

/-- Claim C10: the dedup guard is asymmetric — `markOffline` for a positive
absent id still decrements the counter and still issues the store delete
while leaving the presence map unchanged, whereas id `0` makes both
`markOnline` and `markOffline` complete no-ops. -/
theorem updateOnlineStatus_markOffline_asymmetric (guid : Nat) (s : OnlineState)
    (hpos : 0 < guid) (habs : guid ∉ s.updateOnline) :
    updateOnlineStatus guid false s =
      { updateOnline := s.updateOnline
        playersOnlineCounter := s.playersOnlineCounter - 1
        queries := s.queries ++ [OnlineQuery.deletePlayersOnline guid] }
    ∧ updateOnlineStatus 0 true s = s
    ∧ updateOnlineStatus 0 false s = s := by
  have hg : guid ≠ 0 := Nat.pos_iff_ne_zero.mp hpos
  refine ⟨?_, updateOnlineStatus_zero_id true s, updateOnlineStatus_zero_id false s⟩
  rw [markOffline_spec guid s hg, List.erase_of_not_mem habs]

/-- Witness for C10 at `guid = 5` on the empty state. -/
theorem updateOnlineStatus_markOffline_asymmetric_witness :
    0 < 5 ∧ 5 ∉ emptyOnlineState.updateOnline
    ∧ (updateOnlineStatus 5 false emptyOnlineState =
        { updateOnline := emptyOnlineState.updateOnline
          playersOnlineCounter := emptyOnlineState.playersOnlineCounter - 1
          queries := emptyOnlineState.queries ++ [OnlineQuery.deletePlayersOnline 5] }
      ∧ updateOnlineStatus 0 true emptyOnlineState = emptyOnlineState
      ∧ updateOnlineStatus 0 false emptyOnlineState = emptyOnlineState) :=
  ⟨by decide, by decide,
    updateOnlineStatus_markOffline_asymmetric 5 emptyOnlineState (by decide) (by decide)⟩

/-! ## Authentication gate: `IOLoginData::gameWorldAuthentication` -/

/-- Results returned by the account collaborator (`account::Account`) during
one `gameWorldAuthentication` call: the two `account.load()` calls, the
`account.authenticate()` overloads, `account.getAccountPlayers()` and
`account.getID()`. `players` is the roster map from character name to player
index; C++ `operator[]` on the map yields `0` for an absent name. -/
structure AccountCollab where
  loadFirst : Bool
  sessionAuth : Bool
  passwordAuth : String → Bool
  loadSecond : Bool
  players : List (String × Nat)
  playersOk : Bool
  accountID : Nat

/-- `players[characterName]`: map lookup with `operator[]` default of `0`. -/
def rosterIndex (players : List (String × Nat)) (name : String) : Nat :=
  (players.lookup name).getD 0

/-- `IOLoginData::gameWorldAuthentication`. The `Bool` is the return value;
the `Option Nat` models the `uint32_t &accountId` out-parameter: `none`
means the function returned without assigning it. `authType` is the value of
`g_configManager().getString(AUTH_TYPE)`. The roster test mirrors the
source: it returns `false` when `players[characterName] != 0`. -/
def gameWorldAuthentication (authType : String) (acc : AccountCollab)
    (password characterName : String) : Bool × Option Nat :=
  if ¬ acc.loadFirst then (false, none)
  else if (if authType = "session" then ¬ acc.sessionAuth
           else ¬ acc.passwordAuth password) then (false, none)
  else if ¬ acc.loadSecond then (false, none)
  else if ¬ acc.playersOk then (false, none)
  else if rosterIndex acc.players characterName ≠ 0 then (false, none)
  else (true, some acc.accountID)

/-- The scenario account of the spec: one character at a nonzero roster
index, all collaborator calls succeeding, account id `5`. -/
def aliceAccount : AccountCollab :=
  { loadFirst := true
    sessionAuth := true
    passwordAuth := fun _ => true
    loadSecond := true
    players := [("Alice", 7)]
    playersOk := true
    accountID := 5 }

/-- Claim C1: at the spec scenario input — account loads succeed, the
credential check passes, the roster holds `Alice` at nonzero index `7` —
the code returns `false` for the rostered name `Alice` and returns `true`
(emitting the account id) for the absent name `Bob`, the opposite of the
claimed behaviour: the roster test at `iologindata.cpp:50` fails on a
nonzero index instead of on a zero index, contradicting its own log message
`not found or deleted`. -/
theorem gameWorldAuthentication_roster_check_inverted :
    gameWorldAuthentication "password" aliceAccount "correct" "Alice" = (false, none)
    ∧ gameWorldAuthentication "password" aliceAccount "correct" "Bob" = (true, some 5) := by
  constructor <;> rfl

/-- Claim C7: with the configured authentication mode `session`, the outcome
of `gameWorldAuthentication` does not depend on the supplied password. -/
theorem gameWorldAuthentication_session_ignores_password (authType : String)
    (acc : AccountCollab) (hsession : authType = "session")
    (password1 password2 characterName : String) :
    gameWorldAuthentication authType acc password1 characterName
      = gameWorldAuthentication authType acc password2 characterName := by
  subst hsession
  simp [gameWorldAuthentication]

/-- Witness for C7: two different passwords on the scenario account. -/
theorem gameWorldAuthentication_session_ignores_password_witness :
    ("session" : String) = "session"
    ∧ gameWorldAuthentication "session" aliceAccount "pw1" "Alice"
        = gameWorldAuthentication "session" aliceAccount "pw2" "Alice" :=
  ⟨rfl, gameWorldAuthentication_session_ignores_password "session" aliceAccount rfl
    "pw1" "pw2" "Alice"⟩

/-- Claim C9: the `accountId` out-parameter is assigned exactly on the
`true` return — every `false` return leaves it unassigned, and a `true`
return emits `account.getID()`. -/
theorem gameWorldAuthentication_accountId_frame (authType : String)
    (acc : AccountCollab) (password characterName : String) :
    ((gameWorldAuthentication authType acc password characterName).1 = false
      ↔ (gameWorldAuthentication authType acc password characterName).2 = none)
    ∧ ((gameWorldAuthentication authType acc password characterName).1 = true
      ↔ (gameWorldAuthentication authType acc password characterName).2
          = some acc.accountID) := by
  unfold gameWorldAuthentication
  split_ifs <;> simp

/-! ## Load pipeline: `IOLoginData::loadPlayer` -/

/-- The sub-loaders of `IOLoginDataLoad` (plus the wheel-free post-initialize
steps) invoked by `loadPlayer`, one constructor per call site, in source
order. -/
inductive LoadFacet where
  | first | experience | blessings | conditions | defaultOutfit | skullSystem
  | skill | kills | guild | stashItems | bestiaryCharms | inventoryItems
  | storeInbox | depotItems | rewardItems | inboxItems | storageMap | vip
  | preyClass | taskHuntingClass | forgeHistory | bosstiary
  | initializeSystem | updateSystem
  deriving DecidableEq

/-- The sub-loaders run unconditionally, in the order the source invokes
them (`iologindata.cpp:113` through `iologindata.cpp:170`). -/
def alwaysLoadFacets : List LoadFacet :=
  [.first, .experience, .blessings, .conditions, .defaultOutfit, .skullSystem,
   .skill, .kills, .guild, .stashItems, .bestiaryCharms, .inventoryItems,
   .storeInbox, .depotItems, .rewardItems, .inboxItems, .storageMap, .vip,
   .preyClass, .taskHuntingClass]

/-- The sub-loaders skipped when `disableIrrelevantInfo` is set
(`iologindata.cpp:172-183`). -/
def skippedLoadFacets : List LoadFacet :=
  [.forgeHistory, .bosstiary, .initializeSystem, .updateSystem]

/-- Outcome of one `loadPlayer` run: the sub-loaders invoked (in order),
the boolean return value, and the store-write queries issued by
`loadPlayer` itself. -/
structure LoadRun where
  invoked : List LoadFacet
  ok : Bool
  writes : List String
  deriving DecidableEq

/-- Runs a list of sub-loaders in order. Each sub-loader is an external
collaborator; `faults f = true` models it throwing (`std::exception`),
which the `try` block of `loadPlayer` turns into an aborted run: the
faulting loader is the last one invoked. -/
def runLoaders (faults : LoadFacet → Bool) : List LoadFacet → List LoadFacet × Bool
  | [] => ([], true)
  | f :: fs =>
    if faults f then ([f], false)
    else
      let r := runLoaders faults fs
      (f :: r.1, r.2)

/-- `IOLoginData::loadPlayer`. `hasResult` and `hasPlayer` model the
non-nullness of the `DBResult_ptr` and of the player; when either is null
the function warns and returns `false` before any sub-loader runs. With
`disableIrrelevantInfo` set it returns `true` right after the always-run
facet list; otherwise it continues through the facets of
`skippedLoadFacets`. The body issues no store write. -/
def loadPlayer (hasResult hasPlayer : Bool) (faults : LoadFacet → Bool)
    (disableIrrelevantInfo : Bool) : LoadRun :=
  if ¬ hasResult ∨ ¬ hasPlayer then { invoked := [], ok := false, writes := [] }
  else
    let r := runLoaders faults
      (if disableIrrelevantInfo then alwaysLoadFacets
       else alwaysLoadFacets ++ skippedLoadFacets)
    { invoked := r.1, ok := r.2, writes := [] }

theorem runLoaders_invoked_subset (faults : LoadFacet → Bool) (fs : List LoadFacet) :
    ∀ x ∈ (runLoaders faults fs).1, x ∈ fs := by
  induction fs with
  | nil => simp [runLoaders]
  | cons f fs ih =>
    intro x hx
    by_cases hf : faults f
    · simp [runLoaders, hf] at hx
      simp [hx]
    · simp only [runLoaders, hf, if_neg, Bool.false_eq_true, ite_false,
        List.mem_cons] at hx
      rcases hx with hx | hx
      · simp [hx]
      · exact List.mem_cons_of_mem f (ih x hx)

theorem runLoaders_all_clean (faults : LoadFacet → Bool) (fs : List LoadFacet)
    (h : ∀ f ∈ fs, faults f = false) :
    runLoaders faults fs = (fs, true) := by
  induction fs with
  | nil => rfl
  | cons f fs ih =>
    have hf : faults f = false := h f (List.mem_cons_self f fs)
    have hrest : runLoaders faults fs = (fs, true) :=
      ih (fun x hx => h x (List.mem_cons_of_mem f hx))
    simp [runLoaders, hf, hrest]

theorem runLoaders_first_fault (faults : LoadFacet → Bool)
    (l₁ : List LoadFacet) (f : LoadFacet) (l₂ : List LoadFacet)
    (hclean : ∀ x ∈ l₁, faults x = false) (hf : faults f = true) :
    runLoaders faults (l₁ ++ f :: l₂) = (l₁ ++ [f], false) := by
  induction l₁ with
  | nil => simp [runLoaders, hf]
  | cons x l₁ ih =>
    have hx : faults x = false := hclean x (List.mem_cons_self x l₁)
    have hrest := ih (fun y hy => hclean y (List.mem_cons_of_mem x hy))
    simp [runLoaders, hx, hrest]

/-- Claim C4: with the depth flag set (shallow load) the forge-history,
bosstiary and the two post-initialize sub-loaders are never invoked — on a
fault-free run the pipeline returns `true` having invoked exactly the
always-run facet list — while with the flag unset a fault-free run invokes
every sub-loader including those four. -/
theorem loadPlayer_depth_flag (faults : LoadFacet → Bool) :
    (∀ f ∈ skippedLoadFacets, f ∉ (loadPlayer true true faults true).invoked)
    ∧ ((∀ f ∈ alwaysLoadFacets, faults f = false) →
        loadPlayer true true faults true
          = { invoked := alwaysLoadFacets, ok := true, writes := [] })
    ∧ ((∀ f, faults f = false) →
        loadPlayer true true faults false
          = { invoked := alwaysLoadFacets ++ skippedLoadFacets, ok := true,
              writes := [] }) := by
  refine ⟨?_, ?_, ?_⟩
  · intro f hf hmem
    have hsub : f ∈ alwaysLoadFacets := by
      have := runLoaders_invoked_subset faults alwaysLoadFacets
      simpa [loadPlayer] using this f (by simpa [loadPlayer] using hmem)
    revert hsub
    fin_cases hf <;> decide
  · intro h
    simp [loadPlayer, runLoaders_all_clean faults alwaysLoadFacets h]
  · intro h
    simp [loadPlayer,
      runLoaders_all_clean faults (alwaysLoadFacets ++ skippedLoadFacets)
        (fun f _ => h f)]

/-- Witness for C4: with fault-free sub-loaders a shallow run invokes
exactly the always-run facets and a deep run invokes every facet. -/
theorem loadPlayer_depth_flag_witness :
    loadPlayer true true (fun _ => false) true
        = { invoked := alwaysLoadFacets, ok := true, writes := [] }
    ∧ loadPlayer true true (fun _ => false) false
        = { invoked := alwaysLoadFacets ++ skippedLoadFacets, ok := true,
            writes := [] } :=
  ⟨(loadPlayer_depth_flag (fun _ => false)).2.1 (fun _ _ => rfl),
   (loadPlayer_depth_flag (fun _ => false)).2.2 (fun _ => rfl)⟩

/-- Claim C8: a null snapshot or null player makes `loadPlayer` return
`false` with no sub-loader invoked; a sub-loader fault aborts the pipeline —
the invoked list stops at the faulting loader and the run returns `false`;
and no store write is ever issued by `loadPlayer`. -/
theorem loadPlayer_fault_aborts (hasResult hasPlayer : Bool)
    (faults : LoadFacet → Bool) (flag : Bool) :
    ((hasResult = false ∨ hasPlayer = false) →
        loadPlayer hasResult hasPlayer faults flag
          = { invoked := [], ok := false, writes := [] })
    ∧ (∀ l₁ f l₂,
        (if flag then alwaysLoadFacets else alwaysLoadFacets ++ skippedLoadFacets)
            = l₁ ++ f :: l₂ →
        (∀ x ∈ l₁, faults x = false) → faults f = true →
        loadPlayer true true faults flag
          = { invoked := l₁ ++ [f], ok := false, writes := [] })
    ∧ (loadPlayer hasResult hasPlayer faults flag).writes = [] := by
  refine ⟨?_, ?_, ?_⟩
  · intro h
    rcases h with h | h <;> simp [loadPlayer, h]
  · intro l₁ f l₂ hsplit hclean hf
    have : runLoaders faults
        (if flag then alwaysLoadFacets else alwaysLoadFacets ++ skippedLoadFacets)
        = (l₁ ++ [f], false) := by
      rw [hsplit]; exact runLoaders_first_fault faults l₁ f l₂ hclean hf
    cases flag <;> simp_all [loadPlayer]
  · unfold loadPlayer
    split <;> rfl

/-- Witness for C8: the snapshot-null case, and a fault at the guild loader
on a deep run invoking exactly the eight facets before it plus the guild
loader itself. -/
theorem loadPlayer_fault_aborts_witness :
    loadPlayer false true (fun f => decide (f = LoadFacet.guild)) false
        = { invoked := [], ok := false, writes := [] }
    ∧ loadPlayer true true (fun f => decide (f = LoadFacet.guild)) false
        = { invoked := [LoadFacet.first, LoadFacet.experience, LoadFacet.blessings,
            LoadFacet.conditions, LoadFacet.defaultOutfit, LoadFacet.skullSystem,
            LoadFacet.skill, LoadFacet.kills] ++ [LoadFacet.guild],
            ok := false, writes := [] } :=
  ⟨(loadPlayer_fault_aborts false true (fun f => decide (f = LoadFacet.guild)) false).1
      (Or.inl rfl),
   (loadPlayer_fault_aborts true true (fun f => decide (f = LoadFacet.guild)) false).2.1
      [LoadFacet.first, LoadFacet.experience, LoadFacet.blessings,
       LoadFacet.conditions, LoadFacet.defaultOutfit, LoadFacet.skullSystem,
       LoadFacet.skill, LoadFacet.kills]
      LoadFacet.guild
      [LoadFacet.stashItems, LoadFacet.bestiaryCharms, LoadFacet.inventoryItems,
       LoadFacet.storeInbox, LoadFacet.depotItems, LoadFacet.rewardItems,
       LoadFacet.inboxItems, LoadFacet.storageMap, LoadFacet.vip,
       LoadFacet.preyClass, LoadFacet.taskHuntingClass, LoadFacet.forgeHistory,
       LoadFacet.bosstiary, LoadFacet.initializeSystem, LoadFacet.updateSystem]
      (by decide) (by decide) (by decide)⟩

/-! ## Save pipeline: `IOLoginData::savePlayer` and `savePlayerGuard` -/

/-- The sub-savers invoked by `savePlayerGuard`, one constructor per call
site, in source order (`iologindata.cpp:212-270`); `wheelSlotPoints` is the
`player->wheel()->saveDBPlayerSlotPointsOnLogout()` facet. -/
inductive SaveFacet where
  | first | stash | spells | kills | bestiarySystem | item | depotItems
  | rewardItems | inbox | preyClass | taskHuntingClass | forgeHistory
  | bosstiary | wheelSlotPoints | storage
  deriving DecidableEq

/-- The fixed sub-saver order of `savePlayerGuard`. -/
def saveOrder : List SaveFacet :=
  [.first, .stash, .spells, .kills, .bestiarySystem, .item, .depotItems,
   .rewardItems, .inbox, .preyClass, .taskHuntingClass, .forgeHistory,
   .bosstiary, .wheelSlotPoints, .storage]

/-- The `DatabaseException`s thrown by `savePlayerGuard`: the null-player
guard, and a structured failure naming the failing facet and the player's
display name (`player->getName()`). -/
inductive SaveError where
  | playerNull
  | facetFailed (facet : SaveFacet) (playerName : String)
  deriving DecidableEq

/-- Runs sub-savers in order over an abstract store state `σ`. Each sub-saver
is an external collaborator: invoking facet `f` applies its writes `eff f`
and reports `ok f`; on the first `false` report the guard throws
`facetFailed f name` and invokes nothing further. The result pairs the list
of invoked facets with the thrown or returned outcome. -/
def runSavers {σ : Type} (ok : SaveFacet → Bool) (eff : SaveFacet → σ → σ)
    (name : String) : List SaveFacet → σ → List SaveFacet × Except SaveError σ
  | [], s => ([], Except.ok s)
  | f :: fs, s =>
    if ok f then
      let r := runSavers ok eff name fs (eff f s)
      (f :: r.1, r.2)
    else ([f], Except.error (SaveError.facetFailed f name))

/-- `IOLoginData::savePlayerGuard`: throws on a null player, otherwise runs
the sub-savers in `saveOrder` and returns `true` (modelled as `Except.ok`
carrying the written store state). -/
def savePlayerGuard {σ : Type} (hasPlayer : Bool) (name : String)
    (ok : SaveFacet → Bool) (eff : SaveFacet → σ → σ) (s : σ) :
    List SaveFacet × Except SaveError σ :=
  if hasPlayer then runSavers ok eff name saveOrder s
  else ([], Except.error SaveError.playerNull)

/-- Modelled from the spec: `DBTransaction::executeWithinTransaction` is not
under `src/` (only its caller `savePlayer` is). Per §4.3 of the spec the
Transaction Coordinator opens a unit of work, invokes the body, commits all
writes together when the body succeeds, and on any failure signal —
returned or thrown — discards all writes performed inside the unit before
returning failure, leaving the stored representation unchanged. -/
def executeWithinTransaction {σ : Type} (s : σ)
    (body : σ → List SaveFacet × Except SaveError σ) : σ × Bool :=
  match (body s).2 with
  | Except.ok sCommitted => (sCommitted, true)
  | Except.error _ => (s, false)

/-- `IOLoginData::savePlayer`: the guard run inside the transaction
primitive. -/
def savePlayer {σ : Type} (hasPlayer : Bool) (name : String)
    (ok : SaveFacet → Bool) (eff : SaveFacet → σ → σ) (s : σ) : σ × Bool :=
  executeWithinTransaction s (fun s0 => savePlayerGuard hasPlayer name ok eff s0)

theorem runSavers_all_ok {σ : Type} (ok : SaveFacet → Bool)
    (eff : SaveFacet → σ → σ) (name : String) (fs : List SaveFacet) (s : σ)
    (h : ∀ f ∈ fs, ok f = true) :
    runSavers ok eff name fs s
      = (fs, Except.ok (fs.foldl (fun t f => eff f t) s)) := by
  induction fs generalizing s with
  | nil => rfl
  | cons f fs ih =>
    have hf : ok f = true := h f (List.mem_cons_self f fs)
    simp [runSavers, hf, List.foldl,
      ih (eff f s) (fun x hx => h x (List.mem_cons_of_mem f hx))]

theorem runSavers_error_of_exists {σ : Type} (ok : SaveFacet → Bool)
    (eff : SaveFacet → σ → σ) (name : String) (fs : List SaveFacet) (s : σ)
    (h : ∃ f ∈ fs, ok f = false) :
    ∃ e, (runSavers ok eff name fs s).2 = Except.error e := by
  induction fs generalizing s with
  | nil => simp at h
  | cons f fs ih =>
    by_cases hf : ok f = true
    · rcases h with ⟨g, hg, hgok⟩
      rcases List.mem_cons.mp hg with rfl | hg
    
      · rw [hf] at hgok; cases hgok
      · have := ih (eff f s) ⟨g, hg, hgok⟩
        simpa [runSavers, hf] using this
    · exact ⟨SaveError.facetFailed f name, by simp [runSavers, hf]⟩

theorem runSavers_first_fail {σ : Type} (ok : SaveFacet → Bool)
    (eff : SaveFacet → σ → σ) (name : String) (l₁ : List SaveFacet)
    (f : SaveFacet) (l₂ : List SaveFacet) (s : σ)
    (hclean : ∀ x ∈ l₁, ok x = true) (hf : ok f = false) :
    runSavers ok eff name (l₁ ++ f :: l₂) s
      = (l₁ ++ [f], Except.error (SaveError.facetFailed f name)) := by
  induction l₁ generalizing s with
  | nil => simp [runSavers, hf]
  | cons x l₁ ih =>
    have hx : ok x = true := hclean x (List.mem_cons_self x l₁)
    have hrest := ih (eff x s) (fun y hy => hclean y (List.mem_cons_of_mem x hy))
    simp [runSavers, hx, hrest]

/-- Claim C2: a `savePlayer` run in which the player is null or any
sub-saver reports failure leaves the stored representation unchanged and
returns `false`; when every sub-saver succeeds all writes are committed —
the store becomes the fold of every facet's writes — and `true` is
returned. -/
theorem savePlayer_atomicity {σ : Type} (hasPlayer : Bool) (name : String)
    (ok : SaveFacet → Bool) (eff : SaveFacet → σ → σ) (s : σ) :
    ((hasPlayer = false ∨ ∃ f ∈ saveOrder, ok f = false) →
        savePlayer hasPlayer name ok eff s = (s, false))
    ∧ ((hasPlayer = true ∧ ∀ f ∈ saveOrder, ok f = true) →
        savePlayer hasPlayer name ok eff s
          = (saveOrder.foldl (fun t f => eff f t) s, true)) := by
  constructor
  · rintro (h | h)
    · subst h
      simp [savePlayer, executeWithinTransaction, savePlayerGuard]
    · cases hasPlayer with
      | false => simp [savePlayer, executeWithinTransaction, savePlayerGuard]
      | true =>
        obtain ⟨e, he⟩ := runSavers_error_of_exists ok eff name saveOrder s h
        simp [savePlayer, executeWithinTransaction, savePlayerGuard, he]
  · rintro ⟨hp, hall⟩
    subst hp
    simp [savePlayer, executeWithinTransaction, savePlayerGuard,
      runSavers_all_ok ok eff name saveOrder s hall]

/-- Witness for C2: a failing inventory-item sub-saver rolls the store back
to its initial value and the run reports `false`. -/
theorem savePlayer_atomicity_witness :
    savePlayer true "Alice" (fun f => decide (f ≠ SaveFacet.item))
        (fun f t => t ++ [f]) ([] : List SaveFacet) = ([], false) :=
  (savePlayer_atomicity true "Alice" (fun f => decide (f ≠ SaveFacet.item))
      (fun f t => t ++ [f]) []).1
    (Or.inr ⟨SaveFacet.item, by decide, by decide⟩)

/-- Claim C3: `savePlayerGuard` runs the sub-savers in exactly the fixed
order `saveOrder` (stated literally), a fully successful run invokes them
all in that order, and the first failing sub-saver throws a structured
failure carrying the facet and the player's display name with no later
sub-saver invoked. -/
theorem savePlayerGuard_order_failfast {σ : Type} (name : String)
    (ok : SaveFacet → Bool) (eff : SaveFacet → σ → σ) (s : σ) :
    saveOrder = [SaveFacet.first, .stash, .spells, .kills, .bestiarySystem,
      .item, .depotItems, .rewardItems, .inbox, .preyClass, .taskHuntingClass,
      .forgeHistory, .bosstiary, .wheelSlotPoints, .storage]
    ∧ ((∀ f ∈ saveOrder, ok f = true) →
        savePlayerGuard true name ok eff s
          = (saveOrder, Except.ok (saveOrder.foldl (fun t f => eff f t) s)))
    ∧ (∀ l₁ f l₂, saveOrder = l₁ ++ f :: l₂ →
        (∀ x ∈ l₁, ok x = true) → ok f = false →
        savePlayerGuard true name ok eff s
          = (l₁ ++ [f], Except.error (SaveError.facetFailed f name))) := by
  refine ⟨rfl, ?_, ?_⟩
  · intro h
    simpa [savePlayerGuard] using runSavers_all_ok ok eff name saveOrder s h
  · intro l₁ f l₂ hsplit hclean hf
    have hrun := runSavers_first_fail ok eff name l₁ f l₂ s hclean hf
    simp [savePlayerGuard, hsplit] at hrun ⊢
    exact hrun

/-- Witness for C3: a failing kills sub-saver after three successes throws
`facetFailed kills "Alice"` with exactly four facets invoked. -/
theorem savePlayerGuard_order_failfast_witness :
    savePlayerGuard true "Alice" (fun f => decide (f ≠ SaveFacet.kills))
        (fun f t => t ++ [f]) ([] : List SaveFacet)
      = ([SaveFacet.first, SaveFacet.stash, SaveFacet.spells] ++ [SaveFacet.kills],
         Except.error (SaveError.facetFailed SaveFacet.kills "Alice")) :=
  (savePlayerGuard_order_failfast "Alice" (fun f => decide (f ≠ SaveFacet.kills))
      (fun f t => t ++ [f]) []).2.2
    [SaveFacet.first, SaveFacet.stash, SaveFacet.spells] SaveFacet.kills
    [SaveFacet.bestiarySystem, SaveFacet.item, SaveFacet.depotItems,
     SaveFacet.rewardItems, SaveFacet.inbox, SaveFacet.preyClass,
     SaveFacet.taskHuntingClass, SaveFacet.forgeHistory, SaveFacet.bosstiary,
     SaveFacet.wheelSlotPoints, SaveFacet.storage]
    (by decide) (by decide) (by decide)
